import Mathlib

/-
Verification development for the mcpserverweather repository.

The repository contains four near-duplicate MCP client scripts under
src/mcp-client/. The most complete orchestrator variant is
gradio-client-gpt.py (class MCPClient with connect_to_server,
process_query and cleanup); weather-client-gpt.py carries a variant
connect_to_server without teardown, and weather-client-gpt-old.py a
variant process_query whose follow-up return value is unguarded.
The definitions below are transcribed from those sources; effectful
collaborators (the OpenAI chat API and the MCP tool channel) are
modelled as environments supplying the outcome of each call, and the
observable calls are recorded as an event trace.
-/

namespace MCP

/-! ## JSON values and a model of json.loads

The scripts call json.loads on the function-call argument string
(gradio-client-gpt.py line 84, weather-client-gpt.py line 53). We model
JSON values as an inductive and json.loads as a fuel-bounded
recursive-descent parser covering the fragment the scripts exercise:
null, booleans, integer numbers, strings with simple escapes, arrays
and objects. A string that is not valid JSON yields an error, exactly
as json.loads raises in Python. -/

inductive Json where
  | null : Json
  | bool (b : Bool) : Json
  | num (n : Int) : Json
  | str (s : String) : Json
  | arr (elems : List Json) : Json
  | obj (fields : List (String × Json)) : Json

/-- Drop leading JSON whitespace characters. -/
def skipWs : List Char → List Char
  | [] => []
  | c :: cs =>
    if c = ' ' ∨ c = '\t' ∨ c = '\n' ∨ c = '\r' then skipWs cs else c :: cs

/-- Parse the body of a JSON string after the opening quote, handling
the simple escapes the scripts can encounter. -/
def parseStringBody : List Char → String → Except String (String × List Char)
  | [], _ => .error "Unterminated string"
  | '\x22' :: rest, acc => .ok (acc, rest)
  | '\\' :: c :: rest, acc =>
    let ec := if c = 'n' then '\n' else if c = 't' then '\t' else if c = 'r' then '\r' else c
    parseStringBody rest (acc.push ec)
  | '\\' :: [], _ => .error "Unterminated string"
  | c :: rest, acc => parseStringBody rest (acc.push c)

/-- Split the longest run of leading decimal digits from the input. -/
def takeDigits : List Char → (List Char × List Char)
  | [] => ([], [])
  | c :: cs =>
    if c.isDigit then
      let p := takeDigits cs
      (c :: p.1, p.2)
    else ([], c :: cs)

/-- Numeric value of a digit run, most significant digit first. -/
def digitsVal (acc : Nat) : List Char → Nat
  | [] => acc
  | c :: cs => digitsVal (acc * 10 + (c.toNat - '0'.toNat)) cs

/-- Parse a JSON integer, optionally negative. -/
def parseNumber (cs : List Char) : Except String (Json × List Char) :=
  match cs with
  | '-' :: rest =>
    match takeDigits rest with
    | ([], _) => .error "Expecting value"
    | (ds, rest2) => .ok (.num (-(Int.ofNat (digitsVal 0 ds))), rest2)
  | _ =>
    match takeDigits cs with
    | ([], _) => .error "Expecting value"
    | (ds, rest2) => .ok (.num (Int.ofNat (digitsVal 0 ds)), rest2)

mutual

/-- Parse one JSON value from the input; fuel bounds the recursion and
is chosen large enough in json_loads that it is never exhausted. -/
def parseValue : Nat → List Char → Except String (Json × List Char)
  | 0, _ => .error "Nesting too deep"
  | fuel + 1, cs =>
    match skipWs cs with
    | [] => .error "Expecting value"
    | 'n' :: 'u' :: 'l' :: 'l' :: rest => .ok (.null, rest)
    | 't' :: 'r' :: 'u' :: 'e' :: rest => .ok (.bool true, rest)
    | 'f' :: 'a' :: 'l' :: 's' :: 'e' :: rest => .ok (.bool false, rest)
    | '\x22' :: rest =>
      match parseStringBody rest "" with
      | .error e => .error e
      | .ok (s, rest2) => .ok (.str s, rest2)
    | '[' :: rest =>
      match skipWs rest with
      | ']' :: rest2 => .ok (.arr [], rest2)
      | cs2 => parseArrayRest fuel cs2 []
    | '\x7b' :: rest =>
      match skipWs rest with
      | '\x7d' :: rest2 => .ok (.obj [], rest2)
      | cs2 => parseObjRest fuel cs2 []
    | cs2 => parseNumber cs2

/-- Parse the remaining elements of a nonempty JSON array. -/
def parseArrayRest : Nat → List Char → List Json → Except String (Json × List Char)
  | 0, _, _ => .error "Nesting too deep"
  | fuel + 1, cs, acc =>
    match parseValue fuel cs with
    | .error e => .error e
    | .ok (v, rest) =>
      match skipWs rest with
      | ',' :: rest2 => parseArrayRest fuel rest2 (acc ++ [v])
      | ']' :: rest2 => .ok (.arr (acc ++ [v]), rest2)
      | _ => .error "Expecting delimiter in array"

/-- Parse the remaining members of a nonempty JSON object. -/
def parseObjRest : Nat → List Char → List (String × Json) → Except String (Json × List Char)
  | 0, _, _ => .error "Nesting too deep"
  | fuel + 1, cs, acc =>
    match skipWs cs with
    | '\x22' :: rest =>
      match parseStringBody rest "" with
      | .error e => .error e
      | .ok (key, rest2) =>
        match skipWs rest2 with
        | ':' :: rest3 =>
          match parseValue fuel rest3 with
          | .error e => .error e
          | .ok (v, rest4) =>
            match skipWs rest4 with
            | ',' :: rest5 => parseObjRest fuel rest5 (acc ++ [(key, v)])
            | '\x7d' :: rest5 => .ok (.obj (acc ++ [(key, v)]), rest5)
            | _ => .error "Expecting delimiter in object"
        | _ => .error "Expecting colon in object"
    | _ => .error "Expecting property name in object"

end

/-- Model of Python json.loads on the fragment the scripts use: parse
one value and require only whitespace to remain. -/
def json_loads (s : String) : Except String Json :=
  match parseValue (s.length + 1) s.toList with
  | .error e => .error e
  | .ok (v, rest) => if (skipWs rest).isEmpty then .ok v else .error "Extra data"

/-! ## Tool output shapes and the result normalizer

Transcribed from gradio-client-gpt.py lines 87-100: the raw tool output
is either a list of content items (each item may expose a text
attribute, a content attribute, or falls back to its own string form),
a structured object exposing a content attribute, or anything else,
which Python renders with str. Python attribute presence is modelled
with Option fields and str with py_str. -/

structure ContentItem where
  text : Option String
  content : Option String
  strForm : String

inductive ToolOutput where
  | scalarStr (s : String) : ToolOutput
  | scalarNum (n : Int) : ToolOutput
  | scalarBool (b : Bool) : ToolOutput
  | object (it : ContentItem) : ToolOutput
  | list (items : List ContentItem) : ToolOutput

/-- Python truthiness of an optional string attribute: absent and the
empty string are falsy. -/
def py_truthy : Option String → Bool
  | none => false
  | some s => !(s == "")

/-- Per-item extraction, gradio-client-gpt.py line 94: text attribute
if truthy, else content attribute if truthy, else str of the item. -/
def item_text (it : ContentItem) : String :=
  if py_truthy it.text then it.text.getD ""
  else if py_truthy it.content then it.content.getD ""
  else it.strForm

/-- Model of Python str on the tool output shapes. -/
def py_str : ToolOutput → String
  | .scalarStr s => s
  | .scalarNum n => toString n
  | .scalarBool b => if b then "True" else "False"
  | .object it => it.strForm
  | .list items => "[" ++ String.intercalate ", " (items.map ContentItem.strForm) ++ "]"

/-- Result normalizer, gradio-client-gpt.py lines 88-100: a list maps
to the per-item texts joined with newlines; an object exposing a
content attribute maps to that attribute; everything else maps to its
Python str form. -/
def normalize : ToolOutput → String
  | .list items => String.intercalate "\n" (items.map item_text)
  | .object it =>
    match it.content with
    | some c => c
    | none => it.strForm
  | out => py_str out

/-- Modelled from the spec: the JSON-serialized string form of a scalar
tool output, as the claim about the normalizer words it (Python
json.dumps on a scalar); none on non-scalar shapes. -/
def json_serialized_scalar_form : ToolOutput → Option String
  | .scalarStr s => some ("\x22" ++ s ++ "\x22")
  | .scalarNum n => some (toString n)
  | .scalarBool b => some (if b then "true" else "false")
  | _ => none

/-! ## Data model of the orchestrator

Transcribed from gradio-client-gpt.py. A ToolDescr mirrors one entry of
the MCP tool list (name, description, inputSchema); a FunctionSpec is
the dictionary built for the OpenAI functions parameter at lines 67-70;
ChatMessage mirrors the message dictionaries at lines 75 and 105-109;
LlmMsg mirrors the message object of a ChatCompletion response (content
and function_call attributes); FunctionCall mirrors the function_call
attribute (name and arguments). -/

structure ToolDescr where
  name : String
  description : String
  inputSchema : Json

structure FunctionSpec where
  name : String
  description : String
  parameters : Json

/-- Translation of one tool descriptor into the OpenAI function spec,
gradio-client-gpt.py line 68. -/
def to_function_spec (t : ToolDescr) : FunctionSpec :=
  ⟨t.name, t.description, t.inputSchema⟩

structure FunctionCall where
  name : String
  arguments : Option String

structure LlmMsg where
  content : Option String
  function_call : Option FunctionCall

structure ChatMessage where
  role : String
  content : Option String
  name : Option String
  function_call : Option FunctionCall

/-- Python expression msg.function_call.arguments or two-brace-empty,
gradio-client-gpt.py line 84: an absent or empty arguments string is
replaced by the empty JSON object literal. -/
def arguments_or_default (fc : FunctionCall) : String :=
  match fc.arguments with
  | none => "\x7b\x7d"
  | some a => if a = "" then "\x7b\x7d" else a

/-- Initial message list of a query, gradio-client-gpt.py line 75. -/
def initial_messages (query : String) : List ChatMessage :=
  [⟨"user", some query, none, none⟩]

/-- Message list of the second ChatCompletion call,
gradio-client-gpt.py lines 105-109: the user turn, the assistant turn
carrying the function call, and the function-result turn. -/
def followup_messages (query : String) (fc : FunctionCall) (normalized : String) :
    List ChatMessage :=
  [⟨"user", some query, none, none⟩,
   ⟨"assistant", none, none, some fc⟩,
   ⟨"function", some normalized, some fc.name, none⟩]

/-- Observable calls process_query makes against its collaborators:
ChatCompletion calls (with the message list and the optional function
specs passed) and MCP tool invocations (with name and parsed
arguments). -/
inductive Event where
  | llmCall (messages : List ChatMessage) (functions : Option (List FunctionSpec)) : Event
  | toolCall (name : String) (args : Json) : Event

/-- Outcomes the collaborators produce during one process_query run:
the tool list fetched at line 66, the first ChatCompletion response at
lines 73-79, the tool invocation at line 85 and the second
ChatCompletion response at lines 103-110. An error value models the
corresponding awaited call raising an exception. -/
structure Env where
  listTools : Except String (List ToolDescr)
  firstResponse : Except String LlmMsg
  callTool : String → Json → Except String ToolOutput
  followup : List ChatMessage → Except String LlmMsg

/-- Mutable fields of the gradio MCPClient (lines 31-35): the session
handle, the channels held open by the exit stack, the connected flag
and the cached tool list. A channel is identified by a number; the
exit stack entry for one connection (transport plus session) is
modelled as a single channel. -/
structure State where
  session : Option Nat
  exit_stack : List Nat
  server_connected : Bool
  tools : List ToolDescr

/-- Result of one process_query run: the returned string, the trace of
collaborator calls, and the client state afterwards. -/
structure QueryResult where
  result : String
  events : List Event
  finalState : State

/-- Transcription of MCPClient.process_query, gradio-client-gpt.py
lines 61-115. The guard at lines 62-63 returns the not-connected
message; the try block fetches tools, makes the first ChatCompletion
call, on a function_call parses the arguments, invokes the tool,
normalizes its output and makes the follow-up call; any raising call
is caught at lines 114-115 and rendered as an error string. -/
def process_query (s : State) (env : Env) (query : String) : QueryResult :=
  if !s.server_connected || s.session.isNone then
    ⟨"❌ Not connected.", [], s⟩
  else
    match env.listTools with
    | .error e => ⟨"❌ Error: " ++ e, [], s⟩
    | .ok tools =>
      match env.firstResponse with
      | .error e =>
        ⟨"❌ Error: " ++ e,
         [.llmCall (initial_messages query) (some (tools.map to_function_spec))], s⟩
      | .ok msg =>
        match msg.function_call with
        | some fc =>
          match json_loads (arguments_or_default fc) with
          | .error e =>
            ⟨"❌ Error: " ++ e,
             [.llmCall (initial_messages query) (some (tools.map to_function_spec))], s⟩
          | .ok args =>
            match env.callTool fc.name args with
            | .error e =>
              ⟨"❌ Error: " ++ e,
               [.llmCall (initial_messages query) (some (tools.map to_function_spec)),
                .toolCall fc.name args], s⟩
            | .ok toolOut =>
              match env.followup (followup_messages query fc (normalize toolOut)) with
              | .error e =>
                ⟨"❌ Error: " ++ e,
                 [.llmCall (initial_messages query) (some (tools.map to_function_spec)),
                  .toolCall fc.name args,
                  .llmCall (followup_messages query fc (normalize toolOut)) none], s⟩
              | .ok follow =>
                ⟨follow.content.getD "",
                 [.llmCall (initial_messages query) (some (tools.map to_function_spec)),
                  .toolCall fc.name args,
                  .llmCall (followup_messages query fc (normalize toolOut)) none], s⟩
        | none =>
          ⟨msg.content.getD "",
           [.llmCall (initial_messages query) (some (tools.map to_function_spec))], s⟩

/-- Transcription of MCPClient.cleanup, gradio-client-gpt.py lines
117-121: when a session is held, close the exit stack (releasing every
channel) and clear the connected flag and the session; otherwise do
nothing. -/
def cleanup (s : State) : State :=
  if s.session.isSome then ⟨none, [], false, s.tools⟩ else s

/-- Outcomes of the collaborator calls made while connecting: opening
the stdio transport plus client session (yielding the new channel) and
initialize plus list_tools (yielding the tool list). -/
structure ConnEnv where
  openChannel : Except String Nat
  initTools : Except String (List ToolDescr)

/-- Model of the Python str.endswith test on the server script path,
computed on the character lists. -/
def py_endswith (s suffix : String) : Bool :=
  suffix.toList.isSuffixOf s.toList

/-- Body of connect_to_server after the implicit cleanup,
gradio-client-gpt.py lines 42-59: reject a target that is neither .py
nor .js, open the transport and session onto the exit stack, fetch the
tool list, set the connected flag and return the summary string; a
raising call is caught at lines 58-59. -/
def connect_after_cleanup (s1 : State) (path : String) (env : ConnEnv) : String × State :=
  if !(py_endswith path ".py" || py_endswith path ".js") then
    ("Error: Server script must be .py or .js", s1)
  else
    match env.openChannel with
    | .error e => ("❌ Connection error: " ++ e, s1)
    | .ok ch =>
      match env.initTools with
      | .error e => ("❌ Connection error: " ++ e, ⟨some ch, s1.exit_stack ++ [ch], s1.server_connected, s1.tools⟩)
      | .ok tools =>
        ("✅ Connected with tools:\n" ++
           String.intercalate "\n" (tools.map fun t => t.name ++ ": " ++ t.description),
         ⟨some ch, s1.exit_stack ++ [ch], true, tools⟩)

/-- Transcription of MCPClient.connect_to_server, gradio-client-gpt.py
lines 37-59: when the client is already connected, cleanup runs first
(lines 39-40), then the connection is established. -/
def connect_to_server (s : State) (path : String) (env : ConnEnv) : String × State :=
  connect_after_cleanup (if s.server_connected then cleanup s else s) path env

/-! ## The weather-client-gpt.py connect variant

Transcribed from weather-client-gpt.py lines 18-36: this MCPClient has
no connected flag and its connect performs no teardown of an existing
channel; it pushes the new transport and session onto the same exit
stack. Establishment is modelled as succeeding with the given fresh
channel number. -/

structure WeatherState where
  session : Option Nat
  exit_stack : List Nat

/-- Transcription of MCPClient.connect, weather-client-gpt.py lines
24-36: reject a target that is neither .py nor .js (raising
ValueError), otherwise enter the new transport and session onto the
exit stack, without any teardown of what the stack already holds. -/
def weather_connect (s : WeatherState) (path : String) (ch : Nat) : Except String WeatherState :=
  if !(py_endswith path ".py" || py_endswith path ".js") then
    .error "Server script must be .py or .js file"
  else
    .ok ⟨some ch, s.exit_stack ++ [ch]⟩

/-! ## The weather-client-gpt-old.py process_query variant

Transcribed from weather-client-gpt-old.py lines 47-96. The message
content appended for the function-result turn is the raw tool output
(line 84), so old message contents are either strings or raw tool
outputs; and the follow-up return at line 93 is the response content
without the or-empty guard, so it can be null. Exceptions propagate to
the caller (chat_loop catches them), modelled with Except. -/

structure OldMessage where
  role : String
  content : Option (String ⊕ ToolOutput)
  name : Option String
  function_call : Option FunctionCall

/-- Message list of the follow-up call in weather-client-gpt-old.py
lines 59-85: the user turn, the assistant response object appended
verbatim (line 80), and the function turn carrying the raw tool
output (lines 81-85). -/
def old_followup_messages (query : String) (msg : LlmMsg) (fc : FunctionCall)
    (toolOut : ToolOutput) : List OldMessage :=
  [⟨"user", some (Sum.inl query), none, none⟩,
   ⟨"assistant", msg.content.map Sum.inl, none, some fc⟩,
   ⟨"function", some (Sum.inr toolOut), some fc.name, none⟩]

/-- Collaborator outcomes for the old process_query variant. -/
structure OldEnv where
  listTools : Except String (List ToolDescr)
  firstResponse : Except String LlmMsg
  callTool : String → Json → Except String ToolOutput
  followup : List OldMessage → Except String LlmMsg

/-- Transcription of MCPClient.process_query, weather-client-gpt-old.py
lines 47-96. The follow-up branch returns the response content
unguarded (line 93), hence an optional string; the no-function-call
branch returns content or the empty string (line 96). -/
def old_process_query (env : OldEnv) (query : String) : Except String (Option String) :=
  match env.listTools with
  | .error e => .error e
  | .ok _ =>
    match env.firstResponse with
    | .error e => .error e
    | .ok msg =>
      match msg.function_call with
      | some fc =>
        match json_loads (arguments_or_default fc) with
        | .error e => .error e
        | .ok args =>
          match env.callTool fc.name args with
          | .error e => .error e
          | .ok toolOut =>
            match env.followup (old_followup_messages query msg fc toolOut) with
            | .error e => .error e
            | .ok follow => .ok follow.content
      | none => .ok (some (msg.content.getD ""))

/-! ## Concrete instances used by witnesses and counterexamples -/

/-- Sample tool descriptor matching Scenario A of the spec. -/
def forecastTool : ToolDescr :=
  ⟨"get_forecast", "Get weather forecast for a city", Json.obj [("type", Json.str "object")]⟩

/-- Connected client state holding one live channel. -/
def demoState : State := ⟨some 0, [0], true, [forecastTool]⟩

def c1Fc : FunctionCall := ⟨"get_forecast", some "\x7b\"city\":\"Paris\"\x7d"⟩

def c1Out : ToolOutput := ToolOutput.list [⟨some "Sunny, 22C", none, "TextContent"⟩]

def c1Follow : LlmMsg := ⟨some "It is sunny and 22C in Paris.", none⟩

def c1Env : Env :=
  ⟨.ok [forecastTool], .ok ⟨none, some c1Fc⟩, fun _ _ => .ok c1Out, fun _ => .ok c1Follow⟩

def c2Env : Env :=
  ⟨.ok [forecastTool], .ok ⟨some "Direct answer", none⟩,
   fun _ _ => .ok (ToolOutput.scalarStr "unused"), fun _ => .error "unused"⟩

def c3Witness : ContentItem := ⟨some "Sunny, 22C", none, "TextContent"⟩

def c4Fc : FunctionCall := ⟨"mystery_tool", some "\x7b\x7d"⟩

def c4Env : Env :=
  ⟨.ok [forecastTool], .ok ⟨none, some c4Fc⟩,
   fun _ _ => .ok (ToolOutput.scalarStr "tool ran"), fun _ => .ok ⟨some "done", none⟩⟩

def c5Fc : FunctionCall := ⟨"get_forecast", some "oops"⟩

def c5Env : Env :=
  ⟨.ok [forecastTool], .ok ⟨none, some c5Fc⟩,
   fun _ _ => .ok (ToolOutput.scalarStr "unused"), fun _ => .ok ⟨some "unused", none⟩⟩

def c5WitnessEnv : Env :=
  ⟨.ok [forecastTool], .ok ⟨none, some ⟨"get_forecast", some "not json at all"⟩⟩,
   fun _ _ => .ok (ToolOutput.scalarStr "unused"), fun _ => .ok ⟨some "unused", none⟩⟩

def c6Env : ConnEnv := ⟨.ok 7, .ok [forecastTool]⟩

def c8Env : Env :=
  ⟨.error "unused", .error "unused", fun _ _ => .error "unused", fun _ => .error "unused"⟩

def c9Env : Env :=
  ⟨.ok [forecastTool], .error "boom",
   fun _ _ => .error "unused", fun _ => .error "unused"⟩

def c10Env : Env :=
  ⟨.ok [forecastTool], .ok ⟨none, none⟩,
   fun _ _ => .ok (ToolOutput.scalarStr "unused"), fun _ => .ok ⟨some "unused", none⟩⟩

def c10OldEnv : OldEnv :=
  ⟨.ok [forecastTool], .ok ⟨none, some ⟨"get_forecast", none⟩⟩,
   fun _ _ => .ok (ToolOutput.scalarStr "Sunny"), fun _ => .ok ⟨none, none⟩⟩

/-! ## Claim theorems -/

/-- C1: for every query whose first LLM response is a tool-invocation
request naming a tool in the current tool list, process_query invokes
exactly that tool exactly once with the parsed arguments, then makes
exactly one follow-up LLM call whose message list is two longer than
the original (assistant tool-call turn plus tool-result turn), and
returns the content string of the follow-up response. -/
theorem process_query_tool_path
    (s : State) (env : Env) (q : String) (tools : List ToolDescr)
    (msg : LlmMsg) (fc : FunctionCall) (args : Json) (toolOut : ToolOutput)
    (follow : LlmMsg) (ans : String)
    (hs : s.server_connected = true) (hses : s.session.isNone = false)
    (hlt : env.listTools = .ok tools)
    (h1 : env.firstResponse = .ok msg)
    (hfc : msg.function_call = some fc)
    (hmem : fc.name ∈ tools.map ToolDescr.name)
    (hargs : json_loads (arguments_or_default fc) = .ok args)
    (htool : env.callTool fc.name args = .ok toolOut)
    (hf : env.followup (followup_messages q fc (normalize toolOut)) = .ok follow)
    (hans : follow.content = some ans) :
    process_query s env q =
      ⟨ans,
       [Event.llmCall (initial_messages q) (some (tools.map to_function_spec)),
        Event.toolCall fc.name args,
        Event.llmCall (followup_messages q fc (normalize toolOut)) none],
       s⟩
    ∧ (followup_messages q fc (normalize toolOut)).length
        = (initial_messages q).length + 2 := by
  constructor
  · simp [process_query, hs, hses, hlt, h1, hfc, hargs, htool, hf, hans]
  · rfl

/-- Witness for C1 at the Scenario A inputs. -/
theorem process_query_tool_path_witness :
    process_query demoState c1Env "What is the weather in Paris?" =
      ⟨"It is sunny and 22C in Paris.",
       [Event.llmCall (initial_messages "What is the weather in Paris?")
          (some ([forecastTool].map to_function_spec)),
        Event.toolCall "get_forecast" (Json.obj [("city", Json.str "Paris")]),
        Event.llmCall
          (followup_messages "What is the weather in Paris?" c1Fc (normalize c1Out)) none],
       demoState⟩
    ∧ (followup_messages "What is the weather in Paris?" c1Fc (normalize c1Out)).length
        = (initial_messages "What is the weather in Paris?").length + 2 :=
  process_query_tool_path demoState c1Env "What is the weather in Paris?" [forecastTool]
    ⟨none, some c1Fc⟩ c1Fc (Json.obj [("city", Json.str "Paris")]) c1Out c1Follow
    "It is sunny and 22C in Paris." rfl rfl rfl rfl rfl (by decide) (by rfl) rfl rfl rfl

/-- C2: for every query whose first LLM response carries a direct
content string and no tool-invocation request, process_query returns
exactly that content, invokes no tool and makes no second LLM call. -/
theorem process_query_no_tool_path
    (s : State) (env : Env) (q : String) (tools : List ToolDescr)
    (msg : LlmMsg) (c : String)
    (hs : s.server_connected = true) (hses : s.session.isNone = false)
    (hlt : env.listTools = .ok tools)
    (h1 : env.firstResponse = .ok msg)
    (hfc : msg.function_call = none)
    (hc : msg.content = some c) :
    process_query s env q =
      ⟨c, [Event.llmCall (initial_messages q) (some (tools.map to_function_spec))], s⟩ := by
  simp [process_query, hs, hses, hlt, h1, hfc, hc]

/-- Witness for C2. -/
theorem process_query_no_tool_path_witness :
    process_query demoState c2Env "Hi" =
      ⟨"Direct answer",
       [Event.llmCall (initial_messages "Hi") (some ([forecastTool].map to_function_spec))],
       demoState⟩ :=
  process_query_no_tool_path demoState c2Env "Hi" [forecastTool]
    ⟨some "Direct answer", none⟩ "Direct answer" rfl rfl rfl rfl rfl rfl

/-- C3 counterexample: the claim says a scalar maps to its
JSON-serialized string form, but the code applies Python str, which on
the boolean True yields the string True while its JSON serialization
is the string true. -/
theorem normalize_scalar_json_counterexample :
    normalize (ToolOutput.scalarBool true) = "True"
    ∧ json_serialized_scalar_form (ToolOutput.scalarBool true) = some "true"
    ∧ ¬ (some (normalize (ToolOutput.scalarBool true))
          = json_serialized_scalar_form (ToolOutput.scalarBool true)) := by
  refine ⟨rfl, rfl, by decide⟩

/-- C3 as amended: normalize is a total function into strings; a list
of content items maps to the per-item texts joined with newlines,
where each per-item text is the text attribute, the content attribute
or the string form of the item; an object exposing a content attribute
maps to that attribute and otherwise to its string form; a scalar maps
to its Python str form. -/
theorem normalize_characterization :
    (∀ items : List ContentItem,
        normalize (ToolOutput.list items) = String.intercalate "\n" (items.map item_text))
    ∧ (∀ it : ContentItem,
        item_text it = it.text.getD "" ∨ item_text it = it.content.getD ""
          ∨ item_text it = it.strForm)
    ∧ (∀ it : ContentItem, ∀ c : String,
        it.content = some c → normalize (ToolOutput.object it) = c)
    ∧ (∀ it : ContentItem,
        it.content = none → normalize (ToolOutput.object it) = it.strForm)
    ∧ (∀ s : String, normalize (ToolOutput.scalarStr s) = s)
    ∧ (∀ n : Int, normalize (ToolOutput.scalarNum n) = toString n)
    ∧ (∀ b : Bool, normalize (ToolOutput.scalarBool b) = if b then "True" else "False") := by
  refine ⟨fun items => rfl, fun it => ?_, fun it c h => ?_, fun it h => ?_,
    fun s => rfl, fun n => rfl, fun b => rfl⟩
  · unfold item_text
    by_cases h1 : py_truthy it.text
    · simp [h1]
    · by_cases h2 : py_truthy it.content
      · simp [h1, h2]
      · simp [h1, h2]
  · simp [normalize, h]
  · simp [normalize, h]

/-- Witness for the amended C3 at concrete inputs. -/
theorem normalize_characterization_witness :
    normalize (ToolOutput.list [c3Witness]) =
        String.intercalate "\n" ([c3Witness].map item_text)
    ∧ normalize (ToolOutput.object ⟨none, some "报", "obj"⟩) = "报" :=
  ⟨normalize_characterization.1 [c3Witness],
   normalize_characterization.2.2.1 ⟨none, some "报", "obj"⟩ "报" rfl⟩

/-- C4: the code invokes whatever tool name the first response carries,
with no check against the discovered tool list; at the failing input
below the name mystery_tool is not in the tool list, yet the tool is
invoked and no reportable error is surfaced, contradicting the claim. -/
theorem process_query_unknown_tool_invoked :
    ¬ ("mystery_tool" ∈ [forecastTool].map ToolDescr.name)
    ∧ process_query demoState c4Env "q" =
      ⟨"done",
       [Event.llmCall (initial_messages "q") (some ([forecastTool].map to_function_spec)),
        Event.toolCall "mystery_tool" (Json.obj []),
        Event.llmCall (followup_messages "q" c4Fc "tool ran") none],
       demoState⟩ := by
  refine ⟨by decide, by rfl⟩

/-- C5 counterexample: with a present but malformed arguments string,
json.loads raises, the query fails with an error string and the tool is
never invoked, contradicting the claim that malformed arguments default
to the empty object. -/
theorem process_query_malformed_arguments_counterexample :
    json_loads "oops" = .error "Expecting value"
    ∧ process_query demoState c5Env "q" =
      ⟨"❌ Error: Expecting value",
       [Event.llmCall (initial_messages "q") (some ([forecastTool].map to_function_spec))],
       demoState⟩ := by
  refine ⟨rfl, rfl⟩

/-- C5 as amended: an absent or empty argumentsJSON defaults to the
empty object before tool invocation, while a present malformed
argumentsJSON makes the parse raise, aborting the query with an error
result and no tool invocation. -/
theorem arguments_default_and_parse_failure :
    (∀ name : String, json_loads (arguments_or_default ⟨name, none⟩) = .ok (Json.obj []))
    ∧ (∀ name : String, json_loads (arguments_or_default ⟨name, some ""⟩) = .ok (Json.obj []))
    ∧ (∀ (s : State) (env : Env) (q : String) (tools : List ToolDescr)
         (msg : LlmMsg) (fc : FunctionCall) (e : String),
        s.server_connected = true → s.session.isNone = false →
        env.listTools = .ok tools → env.firstResponse = .ok msg →
        msg.function_call = some fc →
        json_loads (arguments_or_default fc) = .error e →
        process_query s env q =
          ⟨"❌ Error: " ++ e,
           [Event.llmCall (initial_messages q) (some (tools.map to_function_spec))], s⟩) := by
  refine ⟨fun _ => rfl, fun _ => rfl, ?_⟩
  intro s env q tools msg fc e hs hses hlt h1 hfc hargs
  simp [process_query, hs, hses, hlt, h1, hfc, hargs]

/-- Witness for the amended C5. -/
theorem arguments_default_and_parse_failure_witness :
    json_loads (arguments_or_default ⟨"get_forecast", none⟩) = .ok (Json.obj [])
    ∧ process_query demoState c5WitnessEnv "q" =
      ⟨"❌ Error: Expecting value",
       [Event.llmCall (initial_messages "q") (some ([forecastTool].map to_function_spec))],
       demoState⟩ :=
  ⟨arguments_default_and_parse_failure.1 "get_forecast",
   arguments_default_and_parse_failure.2.2 demoState c5WitnessEnv "q" [forecastTool]
     ⟨none, some ⟨"get_forecast", some "not json at all"⟩⟩
     ⟨"get_forecast", some "not json at all"⟩ "Expecting value"
     rfl rfl rfl rfl rfl (by rfl)⟩

/-- C6 counterexample: in weather-client-gpt.py, connect performs no
implicit disconnect, so connecting twice with the same target leaves
two live channels on the exit stack. -/
theorem weather_connect_two_channels_counterexample :
    weather_connect ⟨none, []⟩ "weather.py" 0 = .ok ⟨some 0, [0]⟩
    ∧ weather_connect ⟨some 0, [0]⟩ "weather.py" 1 = .ok ⟨some 1, [0, 1]⟩
    ∧ (WeatherState.exit_stack ⟨some 1, [0, 1]⟩).length ≠ 1 := by
  refine ⟨rfl, rfl, by decide⟩

/-- C6 as amended: in gradio-client-gpt.py, calling connect_to_server
while already Connected first performs the implicit cleanup, so a
successful reconnection leaves exactly the one new channel live;
the weather-client-gpt.py variant performs no such teardown. -/
theorem connect_to_server_single_channel
    (s : State) (path : String) (env : ConnEnv) (ch : Nat) (tools : List ToolDescr)
    (hconn : s.server_connected = true) (hses : s.session.isSome = true)
    (hext : (py_endswith path ".py" || py_endswith path ".js") = true)
    (hch : env.openChannel = .ok ch) (htools : env.initTools = .ok tools) :
    (connect_to_server s path env).2.exit_stack = [ch]
    ∧ (connect_to_server s path env).2.session = some ch := by
  simp [connect_to_server, connect_after_cleanup, cleanup, hconn, hses, hext, hch, htools]

/-- Witness for the amended C6: reconnecting from the connected demo
state leaves exactly the new channel. -/
theorem connect_to_server_single_channel_witness :
    (connect_to_server demoState "weather.py" c6Env).2.exit_stack = [7]
    ∧ (connect_to_server demoState "weather.py" c6Env).2.session = some 7 :=
  connect_to_server_single_channel demoState "weather.py" c6Env 7 [forecastTool]
    rfl rfl (by decide) rfl rfl

/-- C7: cleanup is idempotent; calling it twice equals calling it once,
and it is a no-op when no session is held. -/
theorem cleanup_idempotent :
    (∀ s : State, cleanup (cleanup s) = cleanup s)
    ∧ (∀ s : State, s.session = none → cleanup s = s) := by
  constructor
  · intro s
    by_cases h : s.session.isSome
    · simp [cleanup, h]
    · simp [cleanup, h]
  · intro s h
    simp [cleanup, h]

/-- Witness for C7 at concrete states. -/
theorem cleanup_idempotent_witness :
    cleanup (cleanup demoState) = cleanup demoState
    ∧ cleanup ⟨none, [], false, []⟩ = ⟨none, [], false, []⟩ :=
  ⟨cleanup_idempotent.1 demoState, cleanup_idempotent.2 ⟨none, [], false, []⟩ rfl⟩

/-- C8: a query submitted while not connected fails with the
not-connected message, performs no collaborator call, and leaves the
state unchanged (still Disconnected). -/
theorem process_query_not_connected
    (s : State) (env : Env) (q : String)
    (h : s.server_connected = false ∨ s.session = none) :
    process_query s env q = ⟨"❌ Not connected.", [], s⟩ := by
  rcases h with h | h <;> simp [process_query, h]

/-- Witness for C8 at the initial disconnected state. -/
theorem process_query_not_connected_witness :
    process_query ⟨none, [], false, []⟩ c8Env "hi" =
      ⟨"❌ Not connected.", [], ⟨none, [], false, []⟩⟩ :=
  process_query_not_connected ⟨none, [], false, []⟩ c8Env "hi" (Or.inl rfl)

/-- C9: process_query never changes the client state, and when the
first LLM call, the tool invocation or the follow-up LLM call fails,
the query aborts with an error result while the state is unchanged. -/
theorem process_query_failure_frame
    (s : State) (env : Env) (q : String) :
    (process_query s env q).finalState = s
    ∧ (∀ (tools : List ToolDescr) (e : String),
        s.server_connected = true → s.session.isNone = false →
        env.listTools = .ok tools → env.firstResponse = .error e →
        (process_query s env q).result = "❌ Error: " ++ e)
    ∧ (∀ (tools : List ToolDescr) (msg : LlmMsg) (fc : FunctionCall) (args : Json)
         (e : String),
        s.server_connected = true → s.session.isNone = false →
        env.listTools = .ok tools → env.firstResponse = .ok msg →
        msg.function_call = some fc →
        json_loads (arguments_or_default fc) = .ok args →
        env.callTool fc.name args = .error e →
        (process_query s env q).result = "❌ Error: " ++ e)
    ∧ (∀ (tools : List ToolDescr) (msg : LlmMsg) (fc : FunctionCall) (args : Json)
         (toolOut : ToolOutput) (e : String),
        s.server_connected = true → s.session.isNone = false →
        env.listTools = .ok tools → env.firstResponse = .ok msg →
        msg.function_call = some fc →
        json_loads (arguments_or_default fc) = .ok args →
        env.callTool fc.name args = .ok toolOut →
        env.followup (followup_messages q fc (normalize toolOut)) = .error e →
        (process_query s env q).result = "❌ Error: " ++ e) := by
  refine ⟨?_, ?_, ?_, ?_⟩
  · unfold process_query
    repeat' split
    all_goals rfl
  · intro tools e hs hses hlt h1
    simp [process_query, hs, hses, hlt, h1]
  · intro tools msg fc args e hs hses hlt h1 hfc hargs htool
    simp [process_query, hs, hses, hlt, h1, hfc, hargs, htool]
  · intro tools msg fc args toolOut e hs hses hlt h1 hfc hargs htool hfu
    simp [process_query, hs, hses, hlt, h1, hfc, hargs, htool, hfu]

/-- Witness for C9: a failing first LLM call aborts with the error
string and leaves the connected state unchanged. -/
theorem process_query_failure_frame_witness :
    (process_query demoState c9Env "q").finalState = demoState
    ∧ (process_query demoState c9Env "q").result = "❌ Error: " ++ "boom" :=
  ⟨(process_query_failure_frame demoState c9Env "q").1,
   (process_query_failure_frame demoState c9Env "q").2.1 [forecastTool] "boom" rfl rfl rfl rfl⟩

/-- C10 counterexample: in weather-client-gpt-old.py, a follow-up
response with null content makes process_query return null rather than
the empty string. -/
theorem old_process_query_null_counterexample :
    old_process_query c10OldEnv "weather?" = .ok none := rfl

/-- C10 as amended: in gradio-client-gpt.py (and weather-client-gpt.py)
a null content field is replaced by the empty string on both the first
and the follow-up response, while the weather-client-gpt-old.py
follow-up path returns the content unguarded and can yield null. -/
theorem process_query_null_content_empty
    (s : State) (env : Env) (q : String) (tools : List ToolDescr) (msg : LlmMsg)
    (hs : s.server_connected = true) (hses : s.session.isNone = false)
    (hlt : env.listTools = .ok tools) (h1 : env.firstResponse = .ok msg) :
    (msg.function_call = none → msg.content = none →
      (process_query s env q).result = "")
    ∧ (∀ (fc : FunctionCall) (args : Json) (toolOut : ToolOutput) (follow : LlmMsg),
        msg.function_call = some fc →
        json_loads (arguments_or_default fc) = .ok args →
        env.callTool fc.name args = .ok toolOut →
        env.followup (followup_messages q fc (normalize toolOut)) = .ok follow →
        follow.content = none →
        (process_query s env q).result = "") := by
  constructor
  · intro hfc hc
    simp [process_query, hs, hses, hlt, h1, hfc, hc]
  · intro fc args toolOut follow hfc hargs htool hfu hc
    simp [process_query, hs, hses, hlt, h1, hfc, hargs, htool, hfu, hc]

/-- Witness for the amended C10: a null first-response content with no
tool call yields the empty string. -/
theorem process_query_null_content_empty_witness :
    (process_query demoState c10Env "q").result = "" :=
  (process_query_null_content_empty demoState c10Env "q" [forecastTool]
    ⟨none, none⟩ rfl rfl rfl rfl).1 rfl rfl

end MCP
